import Mathlib

/-!
Shallow embedding of the Sales-Analyzer repository
(`src/analyzer_claude.py` and `src/analyzer_gpt-4-1.py`).

Both files define a `SalesAnalyzer` class with methods `load_data`,
`calculate_total_sales` and `find_top_product`.  The embedding models
python numbers by `ℚ` (prices) and `ℤ` (quantities), the mutable object
state by explicit state passing, the printed diagnostics as returned
values, and the file system by a `fileExists` flag plus the parsed CSV
contents.  Python `float`/`int` parsing is modelled on decimal literals;
the base model keeps prices rational, and a refined model (`PyFloat` and
the `Py` definitions) additionally covers the special literals
`nan`/`inf`/`infinity` accepted by python `float`, whose comparison
semantics matter for the load invariant.  Digit-group underscores and
non-ASCII digits lie outside both models.
-/

/-- Value of a digit string, most significant digit first. -/
def digitsVal (l : List Char) : Nat :=
  l.foldl (fun n c => 10 * n + (c.toNat - Char.toNat '0')) 0

/-- Leading sign of a python numeric literal: `true` means negative. -/
def splitSign : List Char → Bool × List Char
  | [] => (false, [])
  | c :: rest =>
    if c = '-' then (true, rest)
    else if c = '+' then (false, rest)
    else (false, c :: rest)

/-- Exponent digits of a float literal (after the `e`): an optional sign
followed by a nonempty digit string. -/
def parseExpDigits (mant : ℚ) (l : List Char) : Option ℚ :=
  let p := splitSign l
  if p.2.isEmpty then none
  else if p.2.all Char.isDigit then
    some (if p.1 then mant / (10 : ℚ) ^ digitsVal p.2 else mant * (10 : ℚ) ^ digitsVal p.2)
  else none

/-- What may follow the mantissa of a float literal: nothing, or an
exponent part introduced by `e` or `E`. -/
def parseExpTail (mant : ℚ) : List Char → Option ℚ
  | [] => some mant
  | c :: rest => if c = 'e' ∨ c = 'E' then parseExpDigits mant rest else none

/-- Unsigned part of python `float(...)` on finite decimal literals:
`digits`, `digits.digits`, `.digits`, `digits.`, each optionally followed
by an exponent. -/
def parseFloatCore (l : List Char) : Option ℚ :=
  let ip := l.takeWhile Char.isDigit
  let rest := l.dropWhile Char.isDigit
  match rest with
  | [] => if ip.isEmpty then none else some (digitsVal ip : ℚ)
  | c :: rest2 =>
    if c = '.' then
      let fp := rest2.takeWhile Char.isDigit
      let rest3 := rest2.dropWhile Char.isDigit
      if ip.isEmpty && fp.isEmpty then none
      else parseExpTail ((digitsVal ip : ℚ) + (digitsVal fp : ℚ) / (10 : ℚ) ^ fp.length) rest3
    else if c = 'e' ∨ c = 'E' then
      if ip.isEmpty then none else parseExpDigits (digitsVal ip : ℚ) rest2
    else none

/-- Model of python `float(s)` (already-stripped input) restricted to the
finite decimal literals, as `ℚ`; `none` models the `ValueError`.  The
special literals `nan`/`inf` are covered by the refined `parseFloatPy`
below. -/
def parseFloat (s : String) : Option ℚ :=
  let p := splitSign s.data
  match parseFloatCore p.2 with
  | none => none
  | some q => some (if p.1 then -q else q)

/-- Model of python `int(s)` (already-stripped input); `none` models the
`ValueError`. -/
def parseInt (s : String) : Option ℤ :=
  let p := splitSign s.data
  if p.2.isEmpty then none
  else if p.2.all Char.isDigit then
    some (if p.1 then -(digitsVal p.2 : ℤ) else (digitsVal p.2 : ℤ))
  else none

/-- Python `str.strip()`: drop whitespace from both ends. -/
def pyStrip (s : String) : String :=
  ⟨((s.data.dropWhile Char.isWhitespace).reverse.dropWhile Char.isWhitespace).reverse⟩

/-- `row.get(key, '')` (claude variant) and `row.get(key) or ''` (gpt
variant): a missing field reads as the empty string. -/
def fieldOrEmpty : Option String → String
  | none => ""
  | some s => s

/-- A validated sales record: one of the dicts appended to `self.data`. -/
structure SalesRecord where
  product_name : String
  price : ℚ
  quantity : ℤ
  deriving DecidableEq

/-- The dict built by `find_top_product` for each record. -/
structure RevenueEntry where
  product_name : String
  price : ℚ
  quantity : ℤ
  total_revenue : ℚ
  deriving DecidableEq

/-- One data row as produced by `csv.DictReader`: each required field is
either present with a string value or absent. -/
structure Row where
  product_name : Option String
  price : Option String
  quantity : Option String
  deriving DecidableEq

/-- A parsed CSV file: `fieldnames` is the header (`none` models an empty
file with no header line), `rows` the data rows. -/
structure CsvInput where
  fieldnames : Option (List String)
  rows : List Row
  deriving DecidableEq

/-- The mutable attributes of a `SalesAnalyzer` object. -/
structure AnalyzerState where
  filename : String
  data : List SalesRecord
  total_sales : ℚ
  top_product : Option RevenueEntry
  deriving DecidableEq

/-- `SalesAnalyzer.__init__(filename)`. -/
def initialState (filename : String) : AnalyzerState :=
  { filename := filename, data := [], total_sales := 0, top_product := none }

/-- The five per-row validation failures, i.e. the printed skip reasons
(`badPrice`/`badQuantity` carry the offending stripped field text). -/
inductive RowError where
  | emptyName : RowError
  | badPrice : String → RowError
  | badQuantity : String → RowError
  | negativePrice : RowError
  | negativeQuantity : RowError
  deriving DecidableEq

/-- The load-level failures; `load_data` prints the corresponding message
and returns `False`. -/
inductive LoadError where
  | sourceNotFound : LoadError
  | schemaError : LoadError
  | noValidRows : LoadError
  deriving DecidableEq

/-- The body of the per-row loop of `load_data` (identical in both
variants): strip the three fields, then check, in order, empty name,
price parse, quantity parse, negative price, negative quantity, stopping
at the first failure. -/
def validateRow (row : Row) : Except RowError SalesRecord :=
  let name := pyStrip (fieldOrEmpty row.product_name)
  let priceStr := pyStrip (fieldOrEmpty row.price)
  let qtyStr := pyStrip (fieldOrEmpty row.quantity)
  if name = "" then .error .emptyName
  else
    match parseFloat priceStr with
    | none => .error (.badPrice priceStr)
    | some price =>
      match parseInt qtyStr with
      | none => .error (.badQuantity qtyStr)
      | some quantity =>
        if price < 0 then .error .negativePrice
        else if quantity < 0 then .error .negativeQuantity
        else .ok { product_name := name, price := price, quantity := quantity }

/-- The `for row_num, row in enumerate(csv_reader, start=2)` loop: returns
the retained records and the (row number, reason) diagnostics, both in
scan order.  `n` is the number given to the first row of the list. -/
def processRows : Nat → List Row → List SalesRecord × List (Nat × RowError)
  | _, [] => ([], [])
  | n, r :: rs =>
    let rest := processRows (n + 1) rs
    match validateRow r with
    | .ok rec => (rec :: rest.1, rest.2)
    | .error e => (rest.1, (n, e) :: rest.2)

/-- `SalesAnalyzer.load_data` of `analyzer_claude.py`.  Returns the new
object state, the outcome (`.ok ()` models returning `True`; an error
value records which failure message was printed before returning
`False`), and the per-row diagnostics.  The header check of this variant
only tests membership of `'product_name'` in the fieldnames. -/
def load_data_claude (st : AnalyzerState) (fileExists : Bool) (input : CsvInput) :
    AnalyzerState × Except LoadError Unit × List (Nat × RowError) :=
  if fileExists = false then (st, .error .sourceNotFound, [])
  else
    let st1 : AnalyzerState := { st with data := [] }
    match input.fieldnames with
    | none => (st1, .error .schemaError, [])
    | some fns =>
      if fns.contains "product_name" = false then (st1, .error .schemaError, [])
      else
        let pr := processRows 2 input.rows
        let st2 : AnalyzerState := { st1 with data := pr.1 }
        if pr.1.isEmpty then (st2, .error .noValidRows, pr.2)
        else (st2, .ok (), pr.2)

/-- `SalesAnalyzer.load_data` of `analyzer_gpt-4-1.py`.  Identical to the
claude variant except that the header check requires all of
`product_name`, `price` and `quantity` among the fieldnames. -/
def load_data_gpt (st : AnalyzerState) (fileExists : Bool) (input : CsvInput) :
    AnalyzerState × Except LoadError Unit × List (Nat × RowError) :=
  if fileExists = false then (st, .error .sourceNotFound, [])
  else
    let st1 : AnalyzerState := { st with data := [] }
    match input.fieldnames with
    | none => (st1, .error .schemaError, [])
    | some fns =>
      if (fns.contains "product_name" && fns.contains "price" && fns.contains "quantity") = false then
        (st1, .error .schemaError, [])
      else
        let pr := processRows 2 input.rows
        let st2 : AnalyzerState := { st1 with data := pr.1 }
        if pr.1.isEmpty then (st2, .error .noValidRows, pr.2)
        else (st2, .ok (), pr.2)

/-- `SalesAnalyzer.calculate_total_sales` of `analyzer_claude.py`.
Returns the new state, the returned float, and whether the
`No data loaded` error message was printed.  `sum(...)` is python's left
fold starting from `0`. -/
def calculate_total_sales_claude (st : AnalyzerState) : AnalyzerState × ℚ × Bool :=
  match st.data with
  | [] => (st, 0, true)
  | d :: ds =>
    let t := (d :: ds).foldl (fun acc r => acc + r.price * (r.quantity : ℚ)) 0
    ({ st with total_sales := t }, t, false)

/-- `SalesAnalyzer.calculate_total_sales` of `analyzer_gpt-4-1.py`
(textually the same computation as the claude variant). -/
def calculate_total_sales_gpt (st : AnalyzerState) : AnalyzerState × ℚ × Bool :=
  match st.data with
  | [] => (st, 0, true)
  | d :: ds =>
    let t := (d :: ds).foldl (fun acc r => acc + r.price * (r.quantity : ℚ)) 0
    ({ st with total_sales := t }, t, false)

/-- The dict comprehension of `find_top_product`. -/
def toRevenueEntry (r : SalesRecord) : RevenueEntry :=
  { product_name := r.product_name, price := r.price, quantity := r.quantity,
    total_revenue := r.price * (r.quantity : ℚ) }

/-- Python `max(products, key=lambda x: x['total_revenue'])` on a nonempty
list `x :: xs`: scan left to right, replacing the current best only on a
strictly greater key. -/
def pyMaxByRevenue (x : RevenueEntry) (xs : List RevenueEntry) : RevenueEntry :=
  xs.foldl (fun best y => if y.total_revenue > best.total_revenue then y else best) x

/-- `SalesAnalyzer.find_top_product` of `analyzer_claude.py`.  Returns the
new state, the returned dict (or `none`), and whether the `No data
loaded` error message was printed. -/
def find_top_product_claude (st : AnalyzerState) : AnalyzerState × Option RevenueEntry × Bool :=
  match st.data with
  | [] => (st, none, true)
  | d :: ds =>
    let top := pyMaxByRevenue (toRevenueEntry d) (ds.map toRevenueEntry)
    ({ st with top_product := some top }, some top, false)

/-- `SalesAnalyzer.find_top_product` of `analyzer_gpt-4-1.py` (textually
the same computation as the claude variant). -/
def find_top_product_gpt (st : AnalyzerState) : AnalyzerState × Option RevenueEntry × Bool :=
  match st.data with
  | [] => (st, none, true)
  | d :: ds =>
    let top := pyMaxByRevenue (toRevenueEntry d) (ds.map toRevenueEntry)
    ({ st with top_product := some top }, some top, false)

/-- A state holding two records with equal maximum revenue, the
tie-break example of the spec. -/
def tieState : AnalyzerState :=
  { filename := "sales_data.csv",
    data := [{ product_name := "A", price := 10, quantity := 1 },
             { product_name := "B", price := 5, quantity := 2 }],
    total_sales := 0, top_product := none }

/-- A well-formed one-row input file. -/
def goodInput : CsvInput :=
  { fieldnames := some ["product_name", "price", "quantity"],
    rows := [{ product_name := some "A", price := some "10", quantity := some "2" }] }

/-- An input whose only row has a negative price, so no row survives
validation. -/
def negPriceInput : CsvInput :=
  { fieldnames := some ["product_name", "price", "quantity"],
    rows := [{ product_name := some "A", price := some "-1", quantity := some "2" }] }

/-- An input whose header declares `product_name` and `quantity` but not
the required `price` column. -/
def missingPriceInput : CsvInput :=
  { fieldnames := some ["product_name", "quantity"],
    rows := [{ product_name := some "A", price := none, quantity := some "1" }] }

/-!
Refined float model.  Python `float(s)` also accepts the special
literals `nan`, `inf` and `infinity` (case-insensitive, optionally
signed), and comparisons with `nan` are always false.  The `Py`
definitions below repeat the load pipeline over this richer value
domain; they are needed wherever a claim depends on those literals.
-/

/-- A python float value: a finite (here rational) value, `nan`, or a
signed infinity. -/
inductive PyFloat where
  | finite : ℚ → PyFloat
  | nan : PyFloat
  | inf : PyFloat
  | ninf : PyFloat
  deriving DecidableEq

/-- Python `<` on float values: every comparison involving `nan` is
false; otherwise `-inf < finite < inf` with the usual order on finite
values. -/
def PyFloat.lt : PyFloat → PyFloat → Bool
  | .finite a, .finite b => a < b
  | .finite _, .inf => true
  | .ninf, .finite _ => true
  | .ninf, .inf => true
  | _, _ => false

/-- Python `<=` on float values: every comparison involving `nan` is
false. -/
def PyFloat.le : PyFloat → PyFloat → Bool
  | .nan, _ => false
  | _, .nan => false
  | .ninf, _ => true
  | _, .inf => true
  | .inf, _ => false
  | .finite a, .finite b => a ≤ b
  | .finite _, .ninf => false

/-- Model of python `float(s)` including the special literals: after the
optional sign, `nan`, `inf` and `infinity` (case-insensitive) are
accepted in addition to the finite decimal literals. -/
def parseFloatPy (s : String) : Option PyFloat :=
  let p := splitSign s.data
  let body := p.2.map Char.toLower
  if body = "nan".data then some PyFloat.nan
  else if body = "inf".data ∨ body = "infinity".data then
    some (if p.1 then PyFloat.ninf else PyFloat.inf)
  else
    match parseFloatCore p.2 with
    | none => none
    | some q => some (PyFloat.finite (if p.1 then -q else q))

/-- A validated sales record under the refined float model. -/
structure SalesRecordPy where
  product_name : String
  price : PyFloat
  quantity : ℤ
  deriving DecidableEq

/-- The `find_top_product` dict under the refined float model. -/
structure RevenueEntryPy where
  product_name : String
  price : PyFloat
  quantity : ℤ
  total_revenue : PyFloat
  deriving DecidableEq

/-- The `SalesAnalyzer` attributes under the refined float model. -/
structure AnalyzerStatePy where
  filename : String
  data : List SalesRecordPy
  total_sales : PyFloat
  top_product : Option RevenueEntryPy
  deriving DecidableEq

/-- `SalesAnalyzer.__init__(filename)` under the refined float model. -/
def initialStatePy (filename : String) : AnalyzerStatePy :=
  { filename := filename, data := [], total_sales := PyFloat.finite 0,
    top_product := none }

/-- The per-row loop body of `load_data` under the refined float model;
the negative-price check is python `price < 0`, which is false for
`nan`. -/
def validateRowPy (row : Row) : Except RowError SalesRecordPy :=
  let name := pyStrip (fieldOrEmpty row.product_name)
  let priceStr := pyStrip (fieldOrEmpty row.price)
  let qtyStr := pyStrip (fieldOrEmpty row.quantity)
  if name = "" then .error .emptyName
  else
    match parseFloatPy priceStr with
    | none => .error (.badPrice priceStr)
    | some price =>
      match parseInt qtyStr with
      | none => .error (.badQuantity qtyStr)
      | some quantity =>
        if PyFloat.lt price (PyFloat.finite 0) then .error .negativePrice
        else if quantity < 0 then .error .negativeQuantity
        else .ok { product_name := name, price := price, quantity := quantity }

/-- The row loop of `load_data` under the refined float model. -/
def processRowsPy : Nat → List Row → List SalesRecordPy × List (Nat × RowError)
  | _, [] => ([], [])
  | n, r :: rs =>
    let rest := processRowsPy (n + 1) rs
    match validateRowPy r with
    | .ok rec => (rec :: rest.1, rest.2)
    | .error e => (rest.1, (n, e) :: rest.2)

/-- `SalesAnalyzer.load_data` of `analyzer_claude.py` under the refined
float model. -/
def load_data_claude_py (st : AnalyzerStatePy) (fileExists : Bool) (input : CsvInput) :
    AnalyzerStatePy × Except LoadError Unit × List (Nat × RowError) :=
  if fileExists = false then (st, .error .sourceNotFound, [])
  else
    let st1 : AnalyzerStatePy := { st with data := [] }
    match input.fieldnames with
    | none => (st1, .error .schemaError, [])
    | some fns =>
      if fns.contains "product_name" = false then (st1, .error .schemaError, [])
      else
        let pr := processRowsPy 2 input.rows
        let st2 : AnalyzerStatePy := { st1 with data := pr.1 }
        if pr.1.isEmpty then (st2, .error .noValidRows, pr.2)
        else (st2, .ok (), pr.2)

/-- `SalesAnalyzer.load_data` of `analyzer_gpt-4-1.py` under the refined
float model. -/
def load_data_gpt_py (st : AnalyzerStatePy) (fileExists : Bool) (input : CsvInput) :
    AnalyzerStatePy × Except LoadError Unit × List (Nat × RowError) :=
  if fileExists = false then (st, .error .sourceNotFound, [])
  else
    let st1 : AnalyzerStatePy := { st with data := [] }
    match input.fieldnames with
    | none => (st1, .error .schemaError, [])
    | some fns =>
      if (fns.contains "product_name" && fns.contains "price" && fns.contains "quantity") = false then
        (st1, .error .schemaError, [])
      else
        let pr := processRowsPy 2 input.rows
        let st2 : AnalyzerStatePy := { st1 with data := pr.1 }
        if pr.1.isEmpty then (st2, .error .noValidRows, pr.2)
        else (st2, .ok (), pr.2)

/-- An input whose single row has the price text `nan`, which python
`float` accepts. -/
def nanInput : CsvInput :=
  { fieldnames := some ["product_name", "price", "quantity"],
    rows := [{ product_name := some "A", price := some "nan", quantity := some "2" }] }

/-! ## Helper lemmas -/

theorem foldl_add_eq_sum (l : List SalesRecord) : ∀ a : ℚ,
    l.foldl (fun acc r => acc + r.price * (r.quantity : ℚ)) a
      = a + (l.map (fun r => r.price * (r.quantity : ℚ))).sum := by
  induction l with
  | nil => intro a; simp
  | cons r rs ih =>
    intro a
    simp only [List.foldl_cons, List.map_cons, List.sum_cons, ih]
    ring

theorem calcTotal_claude_eq_sum (st : AnalyzerState) (h : st.data ≠ []) :
    (calculate_total_sales_claude st).2.1
      = (st.data.map (fun r => r.price * (r.quantity : ℚ))).sum := by
  rcases hd : st.data with _ | ⟨d, ds⟩
  · exact absurd hd h
  · simp [calculate_total_sales_claude, hd, foldl_add_eq_sum]

theorem calcTotal_gpt_eq_sum (st : AnalyzerState) (h : st.data ≠ []) :
    (calculate_total_sales_gpt st).2.1
      = (st.data.map (fun r => r.price * (r.quantity : ℚ))).sum := by
  rcases hd : st.data with _ | ⟨d, ds⟩
  · exact absurd hd h
  · simp [calculate_total_sales_gpt, hd, foldl_add_eq_sum]

/-! ## Claim theorems -/

/-- Claim C2: for every non-empty loaded record collection,
`calculate_total_sales` (both variants) returns exactly the sum over
every record of `price * quantity`, in exact rational arithmetic with no
intermediate rounding. -/
theorem C2_total_sales_is_sum (st : AnalyzerState) (h : st.data ≠ []) :
    (calculate_total_sales_claude st).2.1
      = (st.data.map (fun r => r.price * (r.quantity : ℚ))).sum
    ∧ (calculate_total_sales_gpt st).2.1
      = (st.data.map (fun r => r.price * (r.quantity : ℚ))).sum :=
  ⟨calcTotal_claude_eq_sum st h, calcTotal_gpt_eq_sum st h⟩

/-- Witness for C2, at a concrete two-record state. -/
theorem C2_witness :
    tieState.data ≠ [] ∧
    ((calculate_total_sales_claude tieState).2.1
        = (tieState.data.map (fun r => r.price * (r.quantity : ℚ))).sum
      ∧ (calculate_total_sales_gpt tieState).2.1
        = (tieState.data.map (fun r => r.price * (r.quantity : ℚ))).sum) :=
  ⟨by decide, C2_total_sales_is_sum tieState (by decide)⟩

/-- Counterexample to claim C4: invoked on the freshly initialised (empty)
collection, `calculate_total_sales` returns the value `0.0` and
`find_top_product` returns `None` (in both variants) — the calls are not
rejected, they return the degenerate values. -/
theorem C4_counterexample :
    (calculate_total_sales_claude (initialState "sales_data.csv")).2.1 = 0
    ∧ (find_top_product_claude (initialState "sales_data.csv")).2.1 = none
    ∧ (calculate_total_sales_gpt (initialState "sales_data.csv")).2.1 = 0
    ∧ (find_top_product_gpt (initialState "sales_data.csv")).2.1 = none :=
  ⟨rfl, rfl, rfl, rfl⟩

/-- Claim C4 as amended: when invoked with an empty record collection,
`calculate_total_sales` emits the `No data loaded` diagnostic and returns
`0.0`, and `find_top_product` emits the diagnostic and returns `None`;
neither call raises, and neither call changes the object state. -/
theorem C4_empty_returns_degenerate_with_diagnostic (st : AnalyzerState) (h : st.data = []) :
    calculate_total_sales_claude st = (st, 0, true)
    ∧ find_top_product_claude st = (st, none, true)
    ∧ calculate_total_sales_gpt st = (st, 0, true)
    ∧ find_top_product_gpt st = (st, none, true) := by
  refine ⟨?_, ?_, ?_, ?_⟩ <;>
    simp [calculate_total_sales_claude, find_top_product_claude,
      calculate_total_sales_gpt, find_top_product_gpt, h]

/-- Witness for the amended C4, at the freshly initialised state. -/
theorem C4_witness :
    (initialState "sales_data.csv").data = []
    ∧ (calculate_total_sales_claude (initialState "sales_data.csv")
        = (initialState "sales_data.csv", 0, true)
      ∧ find_top_product_claude (initialState "sales_data.csv")
        = (initialState "sales_data.csv", none, true)
      ∧ calculate_total_sales_gpt (initialState "sales_data.csv")
        = (initialState "sales_data.csv", 0, true)
      ∧ find_top_product_gpt (initialState "sales_data.csv")
        = (initialState "sales_data.csv", none, true)) :=
  ⟨rfl, C4_empty_returns_degenerate_with_diagnostic (initialState "sales_data.csv") rfl⟩

/-- Claim C8: neither aggregation method (in either variant) mutates the
loaded record collection, and calling either twice in succession on the
same unmodified collection returns identical results both times. -/
theorem C8_aggregation_pure (st : AnalyzerState) :
    (calculate_total_sales_claude st).1.data = st.data
    ∧ (find_top_product_claude st).1.data = st.data
    ∧ (calculate_total_sales_gpt st).1.data = st.data
    ∧ (find_top_product_gpt st).1.data = st.data
    ∧ (calculate_total_sales_claude ((calculate_total_sales_claude st).1)).2.1
        = (calculate_total_sales_claude st).2.1
    ∧ (find_top_product_claude ((find_top_product_claude st).1)).2.1
        = (find_top_product_claude st).2.1
    ∧ (calculate_total_sales_gpt ((calculate_total_sales_gpt st).1)).2.1
        = (calculate_total_sales_gpt st).2.1
    ∧ (find_top_product_gpt ((find_top_product_gpt st).1)).2.1
        = (find_top_product_gpt st).2.1 := by
  rcases hd : st.data with _ | ⟨d, ds⟩ <;>
    simp [calculate_total_sales_claude, find_top_product_claude,
      calculate_total_sales_gpt, find_top_product_gpt, hd]

/-- Claim C10: the two source variants' aggregation methods are
extensionally equal on every state, and on an empty collection both
return `0.0` and `None` respectively. -/
theorem C10_variants_agree (st : AnalyzerState) :
    calculate_total_sales_claude st = calculate_total_sales_gpt st
    ∧ find_top_product_claude st = find_top_product_gpt st
    ∧ (st.data = [] →
        (calculate_total_sales_claude st).2.1 = 0
        ∧ (find_top_product_claude st).2.1 = none
        ∧ (calculate_total_sales_gpt st).2.1 = 0
        ∧ (find_top_product_gpt st).2.1 = none) := by
  refine ⟨rfl, rfl, fun h => ?_⟩
  simp [calculate_total_sales_claude, find_top_product_claude,
    calculate_total_sales_gpt, find_top_product_gpt, h]

/-- Witness for C10, at the freshly initialised (empty) state. -/
theorem C10_witness :
    calculate_total_sales_claude (initialState "w")
      = calculate_total_sales_gpt (initialState "w")
    ∧ (calculate_total_sales_claude (initialState "w")).2.1 = 0
    ∧ (find_top_product_claude (initialState "w")).2.1 = none :=
  ⟨(C10_variants_agree (initialState "w")).1,
   ((C10_variants_agree (initialState "w")).2.2 rfl).1,
   ((C10_variants_agree (initialState "w")).2.2 rfl).2.1⟩

/-- The running best of the python `max` scan is never below its starting
value. -/
theorem pyMax_le (xs : List RevenueEntry) : ∀ x : RevenueEntry,
    x.total_revenue ≤ (pyMaxByRevenue x xs).total_revenue := by
  induction xs with
  | nil => intro x; exact le_rfl
  | cons y ys ih =>
    intro x
    show x.total_revenue
      ≤ (pyMaxByRevenue (if y.total_revenue > x.total_revenue then y else x) ys).total_revenue
    by_cases h : y.total_revenue > x.total_revenue
    · rw [if_pos h]
      exact le_of_lt (lt_of_lt_of_le h (ih y))
    · rw [if_neg h]
      exact ih x

/-- The python `max` scan over `x :: xs` returns the first occurrence of
the maximum: everything strictly before it is strictly smaller, and
everything after it is no greater. -/
theorem pyMax_first (xs : List RevenueEntry) : ∀ x : RevenueEntry,
    ∃ l₁ l₂, x :: xs = l₁ ++ pyMaxByRevenue x xs :: l₂
      ∧ (∀ y ∈ l₁, y.total_revenue < (pyMaxByRevenue x xs).total_revenue)
      ∧ (∀ y ∈ l₂, y.total_revenue ≤ (pyMaxByRevenue x xs).total_revenue) := by
  induction xs with
  | nil =>
    intro x
    exact ⟨[], [], rfl, by simp, by simp⟩
  | cons y ys ih =>
    intro x
    have hstep : pyMaxByRevenue x (y :: ys)
        = pyMaxByRevenue (if y.total_revenue > x.total_revenue then y else x) ys := rfl
    by_cases h : y.total_revenue > x.total_revenue
    · obtain ⟨l₁, l₂, heq, h₁, h₂⟩ := ih y
      rw [hstep, if_pos h]
      refine ⟨x :: l₁, l₂, ?_, ?_, h₂⟩
      · rw [List.cons_append, ← heq]
      · intro z hz
        rcases List.mem_cons.mp hz with rfl | hz'
        · exact lt_of_lt_of_le h (pyMax_le ys y)
        · exact h₁ z hz'
    · obtain ⟨l₁, l₂, heq, h₁, h₂⟩ := ih x
      rw [hstep, if_neg h]
      rcases l₁ with _ | ⟨a, l₁'⟩
      · simp only [List.nil_append] at heq
        injection heq with hx hys
        refine ⟨[], y :: l₂, ?_, by simp, ?_⟩
        · rw [List.nil_append, ← hx, ← hys]
        · intro z hz
          rcases List.mem_cons.mp hz with rfl | hz'
          · rw [← hx]
            exact not_lt.mp h
          · exact h₂ z hz'
      · rw [List.cons_append] at heq
        injection heq with hx hys
        refine ⟨x :: y :: l₁', l₂, ?_, ?_, h₂⟩
        · rw [List.cons_append, List.cons_append, ← hys]
        · intro z hz
          have hxlt : x.total_revenue < (pyMaxByRevenue x ys).total_revenue := by
            have ha := h₁ a (List.mem_cons_self a l₁')
            rw [← hx] at ha
            exact ha
          rcases List.mem_cons.mp hz with rfl | hz'
          · exact hxlt
          · rcases List.mem_cons.mp hz' with rfl | hz''
            · exact lt_of_le_of_lt (not_lt.mp h) hxlt
            · exact h₁ z (List.mem_cons_of_mem a hz'')

/-- Claim C1: on any non-empty collection, `find_top_product` (both
variants) returns the first record of maximum revenue in load order:
every entry strictly before the returned one has strictly smaller
revenue, and no entry after it has greater revenue. -/
theorem C1_top_product_first_of_max (st : AnalyzerState) (h : st.data ≠ []) :
    ∃ e l₁ l₂,
      (find_top_product_claude st).2.1 = some e
      ∧ (find_top_product_gpt st).2.1 = some e
      ∧ st.data.map toRevenueEntry = l₁ ++ e :: l₂
      ∧ (∀ y ∈ l₁, y.total_revenue < e.total_revenue)
      ∧ (∀ y ∈ l₂, y.total_revenue ≤ e.total_revenue) := by
  rcases hd : st.data with _ | ⟨d, ds⟩
  · exact absurd hd h
  · obtain ⟨l₁, l₂, heq, h₁, h₂⟩ := pyMax_first (ds.map toRevenueEntry) (toRevenueEntry d)
    exact ⟨pyMaxByRevenue (toRevenueEntry d) (ds.map toRevenueEntry), l₁, l₂,
      by simp [find_top_product_claude, hd], by simp [find_top_product_gpt, hd],
      by simpa using heq, h₁, h₂⟩

/-- Witness for C1, at the spec's tie example `[("A",10,1), ("B",5,2)]`
(both revenue 10). -/
theorem C1_witness :
    tieState.data ≠ []
    ∧ ∃ e l₁ l₂,
        (find_top_product_claude tieState).2.1 = some e
        ∧ (find_top_product_gpt tieState).2.1 = some e
        ∧ tieState.data.map toRevenueEntry = l₁ ++ e :: l₂
        ∧ (∀ y ∈ l₁, y.total_revenue < e.total_revenue)
        ∧ (∀ y ∈ l₂, y.total_revenue ≤ e.total_revenue) :=
  ⟨by decide, C1_top_product_first_of_max tieState (by decide)⟩

/-- A record produced by a successful row validation satisfies the data
invariant. -/
theorem validateRow_ok_invariant (row : Row) (rec : SalesRecord)
    (h : validateRow row = .ok rec) :
    rec.product_name ≠ "" ∧ 0 ≤ rec.price ∧ 0 ≤ rec.quantity := by
  by_cases hname : pyStrip (fieldOrEmpty row.product_name) = ""
  · simp [validateRow, hname] at h
  · rcases hp : parseFloat (pyStrip (fieldOrEmpty row.price)) with _ | p
    · simp [validateRow, hname, hp] at h
    · rcases hq : parseInt (pyStrip (fieldOrEmpty row.quantity)) with _ | q
      · simp [validateRow, hname, hp, hq] at h
      · by_cases hpn : p < 0
        · simp [validateRow, hname, hp, hq, hpn] at h
        · by_cases hqn : q < 0
          · simp [validateRow, hname, hp, hq, hpn, hqn] at h
          · simp [validateRow, hname, hp, hq, hpn, hqn] at h
            rw [← h]
            exact ⟨hname, not_lt.mp hpn, not_lt.mp hqn⟩

/-- Every record retained by the row loop satisfies the data invariant. -/
theorem processRows_valid (rows : List Row) : ∀ n, ∀ r ∈ (processRows n rows).1,
    r.product_name ≠ "" ∧ 0 ≤ r.price ∧ 0 ≤ r.quantity := by
  induction rows with
  | nil => intro n r hr; simp [processRows] at hr
  | cons row rs ih =>
    intro n r hr
    rcases hv : validateRow row with e | rec
    · simp [processRows, hv] at hr
      exact ih (n + 1) r hr
    · simp [processRows, hv] at hr
      rcases hr with rfl | hr'
      · exact validateRow_ok_invariant row r hv
      · exact ih (n + 1) r hr'

/-- When the claude load reports success, the retained collection is the
output of the row loop. -/
theorem load_claude_ok_data (st : AnalyzerState) (ex : Bool) (input : CsvInput)
    (h : (load_data_claude st ex input).2.1 = .ok ()) :
    (load_data_claude st ex input).1.data = (processRows 2 input.rows).1 := by
  rcases ex with _ | _
  · simp [load_data_claude] at h
  · rcases hf : input.fieldnames with _ | fns
    · simp [load_data_claude, hf] at h
    · by_cases hp : "product_name" ∈ fns
      · by_cases he : (processRows 2 input.rows).1 = []
        · simp [load_data_claude, hf, hp, he] at h
        · simp [load_data_claude, hf, hp, he]
      · simp [load_data_claude, hf, hp] at h

/-- When the gpt load reports success, the retained collection is the
output of the row loop. -/
theorem load_gpt_ok_data (st : AnalyzerState) (ex : Bool) (input : CsvInput)
    (h : (load_data_gpt st ex input).2.1 = .ok ()) :
    (load_data_gpt st ex input).1.data = (processRows 2 input.rows).1 := by
  rcases ex with _ | _
  · simp [load_data_gpt] at h
  · rcases hf : input.fieldnames with _ | fns
    · simp [load_data_gpt, hf] at h
    · by_cases hp : "product_name" ∈ fns → "price" ∈ fns → "quantity" ∉ fns
      · simp [load_data_gpt, hf] at h
        rw [if_pos hp] at h
        simp at h
      · by_cases he : (processRows 2 input.rows).1 = []
        · simp [load_data_gpt, hf, hp, he] at h
        · simp [load_data_gpt, hf, hp, he]

/-- Under the rational restriction of the float model (no `nan`/`inf`
literals), every record retained by a successful `load_data` of either
variant satisfies the data invariant.  The full model refutes the
invariant: see the `nan` counterexample below. -/
theorem rationalModel_load_invariant (st : AnalyzerState) (ex : Bool) (input : CsvInput) :
    ((load_data_claude st ex input).2.1 = .ok () →
      ∀ r ∈ (load_data_claude st ex input).1.data,
        r.product_name ≠ "" ∧ 0 ≤ r.price ∧ 0 ≤ r.quantity)
    ∧ ((load_data_gpt st ex input).2.1 = .ok () →
      ∀ r ∈ (load_data_gpt st ex input).1.data,
        r.product_name ≠ "" ∧ 0 ≤ r.price ∧ 0 ≤ r.quantity) := by
  constructor
  · intro hok r hr
    rw [load_claude_ok_data st ex input hok] at hr
    exact processRows_valid input.rows 2 r hr
  · intro hok r hr
    rw [load_gpt_ok_data st ex input hok] at hr
    exact processRows_valid input.rows 2 r hr

/-- Claim C3 is refuted by the code: a row whose price field is the text
`nan` passes every validation check (python `float('nan')` parses, and
the negative-price test `nan < 0` is false), so `load_data` of both
variants succeeds with no skip diagnostic and the loaded collection
holds a record whose price fails `unit_price >= 0` (`nan >= 0` is false
in python). -/
theorem C3_nan_price_violates_invariant :
    (load_data_claude_py (initialStatePy "f") true nanInput).2.1 = .ok ()
    ∧ (load_data_claude_py (initialStatePy "f") true nanInput).1.data
        = [{ product_name := "A", price := PyFloat.nan, quantity := 2 }]
    ∧ (load_data_claude_py (initialStatePy "f") true nanInput).2.2 = []
    ∧ (load_data_gpt_py (initialStatePy "f") true nanInput).2.1 = .ok ()
    ∧ (load_data_gpt_py (initialStatePy "f") true nanInput).1.data
        = [{ product_name := "A", price := PyFloat.nan, quantity := 2 }]
    ∧ (load_data_gpt_py (initialStatePy "f") true nanInput).2.2 = []
    ∧ PyFloat.le (PyFloat.finite 0) PyFloat.nan = false :=
  ⟨rfl, rfl, rfl, rfl, rfl, rfl, rfl⟩

/-- Claim C7: when the schema check passes but zero rows survive
validation, both variants report the load failed with the
`no valid rows` message, which is distinct from a schema failure. -/
theorem C7_zero_valid_rows_distinct_failure (st : AnalyzerState) (fns : List String)
    (rows : List Row) (h1 : "product_name" ∈ fns) (h2 : "price" ∈ fns)
    (h3 : "quantity" ∈ fns) (hempty : (processRows 2 rows).1 = []) :
    (load_data_claude st true ⟨some fns, rows⟩).2.1 = .error .noValidRows
    ∧ (load_data_gpt st true ⟨some fns, rows⟩).2.1 = .error .noValidRows
    ∧ LoadError.noValidRows ≠ LoadError.schemaError
    ∧ LoadError.noValidRows ≠ LoadError.sourceNotFound := by
  refine ⟨?_, ?_, by decide, by decide⟩
  · simp [load_data_claude, h1, hempty]
  · simp [load_data_gpt, h1, h2, h3, hempty]

/-- Witness for C7: an input whose single row has a negative price. -/
theorem C7_witness :
    (load_data_claude (initialState "f") true negPriceInput).2.1 = .error .noValidRows
    ∧ (load_data_gpt (initialState "f") true negPriceInput).2.1 = .error .noValidRows
    ∧ LoadError.noValidRows ≠ LoadError.schemaError
    ∧ LoadError.noValidRows ≠ LoadError.sourceNotFound :=
  C7_zero_valid_rows_distinct_failure (initialState "f")
    ["product_name", "price", "quantity"]
    [{ product_name := some "A", price := some "-1", quantity := some "2" }]
    (by decide) (by decide) (by decide) (by decide)

/-- Claim C9: calling `load_data` on a missing file returns before the
collection is cleared, so stale records from an earlier load remain and
aggregation operates on them; every load attempt on an existing file
resets the collection first (its final contents never depend on the
previous state). -/
theorem C9_missing_file_keeps_stale_data (st st2 : AnalyzerState) (input input2 : CsvInput)
    (h : st.data ≠ []) :
    (load_data_claude st false input).1 = st
    ∧ (load_data_claude st false input).2.1 = .error .sourceNotFound
    ∧ (load_data_gpt st false input).1 = st
    ∧ (load_data_gpt st false input).2.1 = .error .sourceNotFound
    ∧ (calculate_total_sales_claude (load_data_claude st false input).1).2.1
        = (st.data.map (fun r => r.price * (r.quantity : ℚ))).sum
    ∧ (calculate_total_sales_gpt (load_data_gpt st false input).1).2.1
        = (st.data.map (fun r => r.price * (r.quantity : ℚ))).sum
    ∧ (load_data_claude st2 true input2).1.data
        = (match input2.fieldnames with
           | none => []
           | some fns => if "product_name" ∈ fns then (processRows 2 input2.rows).1 else [])
    ∧ (load_data_gpt st2 true input2).1.data
        = (match input2.fieldnames with
           | none => []
           | some fns =>
             if "product_name" ∈ fns ∧ "price" ∈ fns ∧ "quantity" ∈ fns
             then (processRows 2 input2.rows).1 else []) := by
  refine ⟨rfl, rfl, rfl, rfl, calcTotal_claude_eq_sum st h, calcTotal_gpt_eq_sum st h, ?_, ?_⟩
  · rcases hf : input2.fieldnames with _ | fns
    · simp [load_data_claude, hf]
    · by_cases hc : "product_name" ∈ fns
      · by_cases he : (processRows 2 input2.rows).1 = [] <;>
          simp [load_data_claude, hf, hc, he]
      · simp [load_data_claude, hf, hc]
  · rcases hf : input2.fieldnames with _ | fns
    · simp [load_data_gpt, hf]
    · by_cases h1 : "product_name" ∈ fns <;> by_cases h2 : "price" ∈ fns <;>
        by_cases h3 : "quantity" ∈ fns <;>
        by_cases he : (processRows 2 input2.rows).1 = [] <;>
        simp [load_data_gpt, hf, h1, h2, h3, he]

/-- Witness for C9, with stale two-record data and a concrete input. -/
theorem C9_witness :
    tieState.data ≠ []
    ∧ ((load_data_claude tieState false goodInput).1 = tieState
      ∧ (load_data_claude tieState false goodInput).2.1 = .error .sourceNotFound
      ∧ (load_data_gpt tieState false goodInput).1 = tieState
      ∧ (load_data_gpt tieState false goodInput).2.1 = .error .sourceNotFound
      ∧ (calculate_total_sales_claude (load_data_claude tieState false goodInput).1).2.1
          = (tieState.data.map (fun r => r.price * (r.quantity : ℚ))).sum
      ∧ (calculate_total_sales_gpt (load_data_gpt tieState false goodInput).1).2.1
          = (tieState.data.map (fun r => r.price * (r.quantity : ℚ))).sum
      ∧ (load_data_claude (initialState "g") true goodInput).1.data
          = (match goodInput.fieldnames with
             | none => []
             | some fns => if "product_name" ∈ fns then (processRows 2 goodInput.rows).1 else [])
      ∧ (load_data_gpt (initialState "g") true goodInput).1.data
          = (match goodInput.fieldnames with
             | none => []
             | some fns =>
               if "product_name" ∈ fns ∧ "price" ∈ fns ∧ "quantity" ∈ fns
               then (processRows 2 goodInput.rows).1 else [])) :=
  ⟨by decide,
   C9_missing_file_keeps_stale_data tieState (initialState "g") goodInput goodInput (by decide)⟩

/-- Counterexample to claim C5: in the claude variant a header that
declares `product_name` but lacks the required `price` column does not
fail with a schema error — the data row is processed (and skipped at the
price parse), and the load fails with `no valid rows` instead. -/
theorem C5_counterexample :
    (load_data_claude (initialState "f") true missingPriceInput).2.1 = .error .noValidRows
    ∧ (load_data_claude (initialState "f") true missingPriceInput).2.1 ≠ .error .schemaError
    ∧ (load_data_claude (initialState "f") true missingPriceInput).2.2
        = [(2, .badPrice "")] := by
  refine ⟨rfl, fun hco => ?_, rfl⟩
  have hco' : Except.error LoadError.noValidRows
      = (Except.error LoadError.schemaError : Except LoadError Unit) := hco
  simp at hco'

/-- Claim C5 as amended: with no header at all, both variants fail with a
schema error and process zero rows.  With a header, the gpt variant fails
with a schema error exactly when one of `product_name`, `price`,
`quantity` is missing, while the claude variant does so exactly when
`product_name` is missing; whenever a schema error is reported, zero data
rows are processed. -/
theorem C5_schema_error_scope (st : AnalyzerState) (rows : List Row) (fns : List String) :
    ((load_data_gpt st true ⟨none, rows⟩).2.1 = .error .schemaError
      ∧ (load_data_gpt st true ⟨none, rows⟩).2.2 = [])
    ∧ ((load_data_claude st true ⟨none, rows⟩).2.1 = .error .schemaError
      ∧ (load_data_claude st true ⟨none, rows⟩).2.2 = [])
    ∧ ((load_data_gpt st true ⟨some fns, rows⟩).2.1 = .error .schemaError
      ↔ ¬("product_name" ∈ fns ∧ "price" ∈ fns ∧ "quantity" ∈ fns))
    ∧ ((load_data_claude st true ⟨some fns, rows⟩).2.1 = .error .schemaError
      ↔ "product_name" ∉ fns)
    ∧ ((load_data_gpt st true ⟨some fns, rows⟩).2.1 = .error .schemaError
      → (load_data_gpt st true ⟨some fns, rows⟩).2.2 = [])
    ∧ ((load_data_claude st true ⟨some fns, rows⟩).2.1 = .error .schemaError
      → (load_data_claude st true ⟨some fns, rows⟩).2.2 = []) := by
  refine ⟨⟨by simp [load_data_gpt], by simp [load_data_gpt]⟩,
    ⟨by simp [load_data_claude], by simp [load_data_claude]⟩, ?_, ?_, ?_, ?_⟩
  · by_cases h1 : "product_name" ∈ fns <;> by_cases h2 : "price" ∈ fns <;>
      by_cases h3 : "quantity" ∈ fns <;>
      by_cases he : (processRows 2 rows).1 = [] <;>
      simp [load_data_gpt, h1, h2, h3, he]
  · by_cases hc : "product_name" ∈ fns <;>
      by_cases he : (processRows 2 rows).1 = [] <;>
      simp [load_data_claude, hc, he]
  · by_cases h1 : "product_name" ∈ fns <;> by_cases h2 : "price" ∈ fns <;>
      by_cases h3 : "quantity" ∈ fns <;>
      by_cases he : (processRows 2 rows).1 = [] <;>
      simp [load_data_gpt, h1, h2, h3, he]
  · by_cases hc : "product_name" ∈ fns <;>
      by_cases he : (processRows 2 rows).1 = [] <;>
      simp [load_data_claude, hc, he]

/-- Witness for the amended C5, at a header missing all of the required
columns but `quantity`. -/
theorem C5_witness :
    (load_data_gpt (initialState "f") true ⟨some ["quantity"], []⟩).2.1 = .error .schemaError
    ∧ (load_data_claude (initialState "f") true ⟨some ["quantity"], []⟩).2.1
        = .error .schemaError
    ∧ (load_data_gpt (initialState "f") true ⟨some ["quantity"], []⟩).2.2 = []
    ∧ (load_data_claude (initialState "f") true ⟨some ["quantity"], []⟩).2.2 = [] := by
  have H := C5_schema_error_scope (initialState "f") [] ["quantity"]
  exact ⟨H.2.2.1.mpr (by decide), H.2.2.2.1.mpr (by decide),
    H.2.2.2.2.1 (H.2.2.1.mpr (by decide)), H.2.2.2.2.2 (H.2.2.2.1.mpr (by decide))⟩

/-- The row loop keeps exactly the validated rows (in order) and emits one
diagnostic per failing row, numbered from its position in the list. -/
theorem processRows_eq (rows : List Row) : ∀ n,
    processRows n rows
      = (rows.filterMap (fun r => (validateRow r).toOption),
         (List.enumFrom n rows).filterMap (fun p =>
            match validateRow p.2 with
            | .ok _ => none
            | .error e => some (p.1, e))) := by
  induction rows with
  | nil => intro n; rfl
  | cons r rs ih =>
    intro n
    rcases hv : validateRow r with e | rec <;>
      simp [processRows, List.enumFrom, List.filterMap_cons, ih (n + 1), hv, Except.toOption]

/-- Once the claude schema check passes, the load's collection and
diagnostics are exactly the row loop's outputs. -/
theorem load_claude_schemaOk (st : AnalyzerState) (fns : List String) (rows : List Row)
    (h : "product_name" ∈ fns) :
    (load_data_claude st true ⟨some fns, rows⟩).1.data = (processRows 2 rows).1
    ∧ (load_data_claude st true ⟨some fns, rows⟩).2.2 = (processRows 2 rows).2 := by
  by_cases he : (processRows 2 rows).1 = [] <;> simp [load_data_claude, h, he]

/-- Once the gpt schema check passes, the load's collection and
diagnostics are exactly the row loop's outputs. -/
theorem load_gpt_schemaOk (st : AnalyzerState) (fns : List String) (rows : List Row)
    (h1 : "product_name" ∈ fns) (h2 : "price" ∈ fns) (h3 : "quantity" ∈ fns) :
    (load_data_gpt st true ⟨some fns, rows⟩).1.data = (processRows 2 rows).1
    ∧ (load_data_gpt st true ⟨some fns, rows⟩).2.2 = (processRows 2 rows).2 := by
  by_cases he : (processRows 2 rows).1 = [] <;> simp [load_data_gpt, h1, h2, h3, he]

/-- Exact characterisation of the per-row validator: each outcome occurs
precisely when every earlier check passes and the corresponding check
fails (the row is accepted when all five pass), which pins down both the
order of the checks and the short-circuit at the first failure. -/
theorem validateRow_first_failure (row : Row) :
    (validateRow row = .error .emptyName
      ↔ pyStrip (fieldOrEmpty row.product_name) = "")
    ∧ (validateRow row = .error (.badPrice (pyStrip (fieldOrEmpty row.price)))
      ↔ pyStrip (fieldOrEmpty row.product_name) ≠ ""
        ∧ parseFloat (pyStrip (fieldOrEmpty row.price)) = none)
    ∧ (validateRow row = .error (.badQuantity (pyStrip (fieldOrEmpty row.quantity)))
      ↔ pyStrip (fieldOrEmpty row.product_name) ≠ ""
        ∧ (∃ p, parseFloat (pyStrip (fieldOrEmpty row.price)) = some p)
        ∧ parseInt (pyStrip (fieldOrEmpty row.quantity)) = none)
    ∧ (validateRow row = .error .negativePrice
      ↔ pyStrip (fieldOrEmpty row.product_name) ≠ ""
        ∧ (∃ p, parseFloat (pyStrip (fieldOrEmpty row.price)) = some p ∧ p < 0)
        ∧ (∃ q, parseInt (pyStrip (fieldOrEmpty row.quantity)) = some q))
    ∧ (validateRow row = .error .negativeQuantity
      ↔ pyStrip (fieldOrEmpty row.product_name) ≠ ""
        ∧ (∃ p, parseFloat (pyStrip (fieldOrEmpty row.price)) = some p ∧ 0 ≤ p)
        ∧ (∃ q, parseInt (pyStrip (fieldOrEmpty row.quantity)) = some q ∧ q < 0))
    ∧ (∀ rec : SalesRecord, validateRow row = .ok rec
      ↔ pyStrip (fieldOrEmpty row.product_name) ≠ ""
        ∧ ∃ p q, parseFloat (pyStrip (fieldOrEmpty row.price)) = some p
          ∧ parseInt (pyStrip (fieldOrEmpty row.quantity)) = some q
          ∧ 0 ≤ p ∧ 0 ≤ q
          ∧ rec = { product_name := pyStrip (fieldOrEmpty row.product_name),
                    price := p, quantity := q }) := by
  by_cases hname : pyStrip (fieldOrEmpty row.product_name) = ""
  · simp [validateRow, hname]
  · rcases hp : parseFloat (pyStrip (fieldOrEmpty row.price)) with _ | p
    · simp [validateRow, hname, hp]
    · rcases hq : parseInt (pyStrip (fieldOrEmpty row.quantity)) with _ | q
      · simp [validateRow, hname, hp, hq]
      · by_cases hpn : p < 0
        · simp [validateRow, hname, hp, hq, hpn, hpn.not_le]
        · by_cases hqn : q < 0
          · simp [validateRow, hname, hp, hq, hpn, hqn, not_lt.mp hpn, hqn.not_le]
          · simp [validateRow, hname, hp, hq, hpn, hqn, not_lt.mp hpn, not_lt.mp hqn,
              eq_comm]

/-- Claim C6: per-row validation applies the five checks in exactly the
order empty-name, price-parse, quantity-parse, negative-price,
negative-quantity, short-circuiting at the first failure (each outcome
occurs precisely when all earlier checks pass and that check fails);
each failing row yields one diagnostic carrying its header-offset
position (the first data row is numbered 2) and the reason, loading
continues with the remaining rows, and exactly the rows passing all five
checks become records. -/
theorem C6_validation_order_and_row_numbering :
    (∀ row : Row,
      (validateRow row = .error .emptyName
        ↔ pyStrip (fieldOrEmpty row.product_name) = "")
      ∧ (validateRow row = .error (.badPrice (pyStrip (fieldOrEmpty row.price)))
        ↔ pyStrip (fieldOrEmpty row.product_name) ≠ ""
          ∧ parseFloat (pyStrip (fieldOrEmpty row.price)) = none)
      ∧ (validateRow row = .error (.badQuantity (pyStrip (fieldOrEmpty row.quantity)))
        ↔ pyStrip (fieldOrEmpty row.product_name) ≠ ""
          ∧ (∃ p, parseFloat (pyStrip (fieldOrEmpty row.price)) = some p)
          ∧ parseInt (pyStrip (fieldOrEmpty row.quantity)) = none)
      ∧ (validateRow row = .error .negativePrice
        ↔ pyStrip (fieldOrEmpty row.product_name) ≠ ""
          ∧ (∃ p, parseFloat (pyStrip (fieldOrEmpty row.price)) = some p ∧ p < 0)
          ∧ (∃ q, parseInt (pyStrip (fieldOrEmpty row.quantity)) = some q))
      ∧ (validateRow row = .error .negativeQuantity
        ↔ pyStrip (fieldOrEmpty row.product_name) ≠ ""
          ∧ (∃ p, parseFloat (pyStrip (fieldOrEmpty row.price)) = some p ∧ 0 ≤ p)
          ∧ (∃ q, parseInt (pyStrip (fieldOrEmpty row.quantity)) = some q ∧ q < 0))
      ∧ (∀ rec : SalesRecord, validateRow row = .ok rec
        ↔ pyStrip (fieldOrEmpty row.product_name) ≠ ""
          ∧ ∃ p q, parseFloat (pyStrip (fieldOrEmpty row.price)) = some p
            ∧ parseInt (pyStrip (fieldOrEmpty row.quantity)) = some q
            ∧ 0 ≤ p ∧ 0 ≤ q
            ∧ rec = { product_name := pyStrip (fieldOrEmpty row.product_name),
                      price := p, quantity := q }))
    ∧ (∀ (st : AnalyzerState) (fns : List String) (rows : List Row),
        "product_name" ∈ fns →
        (load_data_claude st true ⟨some fns, rows⟩).1.data
            = rows.filterMap (fun r => (validateRow r).toOption)
          ∧ (load_data_claude st true ⟨some fns, rows⟩).2.2
            = (List.enumFrom 2 rows).filterMap (fun p =>
                match validateRow p.2 with
                | .ok _ => none
                | .error e => some (p.1, e)))
    ∧ (∀ (st : AnalyzerState) (fns : List String) (rows : List Row),
        "product_name" ∈ fns → "price" ∈ fns → "quantity" ∈ fns →
        (load_data_gpt st true ⟨some fns, rows⟩).1.data
            = rows.filterMap (fun r => (validateRow r).toOption)
          ∧ (load_data_gpt st true ⟨some fns, rows⟩).2.2
            = (List.enumFrom 2 rows).filterMap (fun p =>
                match validateRow p.2 with
                | .ok _ => none
                | .error e => some (p.1, e))) := by
  refine ⟨validateRow_first_failure, ?_, ?_⟩
  · intro st fns rows h
    obtain ⟨h1, h2⟩ := load_claude_schemaOk st fns rows h
    rw [processRows_eq rows 2] at h1 h2
    exact ⟨h1, h2⟩
  · intro st fns rows hm1 hm2 hm3
    obtain ⟨h1, h2⟩ := load_gpt_schemaOk st fns rows hm1 hm2 hm3
    rw [processRows_eq rows 2] at h1 h2
    exact ⟨h1, h2⟩

/-- Witness for C6, instantiating the load clauses at a concrete file. -/
theorem C6_witness :
    ((load_data_claude (initialState "f") true
        ⟨some ["product_name", "price", "quantity"],
         [{ product_name := some "A", price := some "10", quantity := some "2" }]⟩).1.data
        = [{ product_name := some "A", price := some "10", quantity := some "2" }].filterMap
            (fun r => (validateRow r).toOption)
      ∧ (load_data_claude (initialState "f") true
        ⟨some ["product_name", "price", "quantity"],
         [{ product_name := some "A", price := some "10", quantity := some "2" }]⟩).2.2
        = (List.enumFrom 2
            [{ product_name := some "A", price := some "10", quantity := some "2" }]).filterMap
            (fun p =>
              match validateRow p.2 with
              | .ok _ => none
              | .error e => some (p.1, e)))
    ∧ ((load_data_gpt (initialState "f") true
        ⟨some ["product_name", "price", "quantity"],
         [{ product_name := some "A", price := some "10", quantity := some "2" }]⟩).1.data
        = [{ product_name := some "A", price := some "10", quantity := some "2" }].filterMap
            (fun r => (validateRow r).toOption)
      ∧ (load_data_gpt (initialState "f") true
        ⟨some ["product_name", "price", "quantity"],
         [{ product_name := some "A", price := some "10", quantity := some "2" }]⟩).2.2
        = (List.enumFrom 2
            [{ product_name := some "A", price := some "10", quantity := some "2" }]).filterMap
            (fun p =>
              match validateRow p.2 with
              | .ok _ => none
              | .error e => some (p.1, e))) :=
  ⟨C6_validation_order_and_row_numbering.2.1 (initialState "f")
      ["product_name", "price", "quantity"]
      [{ product_name := some "A", price := some "10", quantity := some "2" }] (by decide),
   C6_validation_order_and_row_numbering.2.2 (initialState "f")
      ["product_name", "price", "quantity"]
      [{ product_name := some "A", price := some "10", quantity := some "2" }]
      (by decide) (by decide) (by decide)⟩
